import Mathlib

/-!
Verification of the oil PVT model construction and query pipeline
(ECLPvtOil.cpp): raw-table validation, dead/live oil dispatch,
primary-key extraction, per-region query surface and its error handling.

Numeric table entries are embedded as rationals; machine-size arithmetic
(std::vector size_type) appears only where its unsigned wraparound is
observable, namely in the range-error message of validateRegIdx.
-/

/-- ECLPropTableRawData: the external input contract — flat numeric arrays
plus dimension metadata. -/
structure ECLPropTableRawData where
  numPrimary : Nat
  numRows : Nat
  numCols : Nat
  numTables : Nat
  primaryKey : List ℚ
  data : List ℚ
  deriving Repr, DecidableEq

/-- Sentinel magnitude: table entries with absolute value at least 1.0e20
denote unused slots. -/
def sentinelRat : ℚ := 10 ^ 20

/-- Modelled from the spec: the external unit-system registry
(ECLUnits::createUnitSystem / CreateUnitConverter::ToSI) supplies conversion
functions for pressure, dissolved-gas ratio, reciprocal FVF, reciprocal
FVF·viscosity, and the two pressure-derivative columns. -/
structure UnitSystem where
  pressure : ℚ → ℚ
  disGas : ℚ → ℚ
  recipFvf : ℚ → ℚ
  recipFvfVisc : ℚ → ℚ
  recipFvfDerivPress : ℚ → ℚ
  recipFvfViscDerivPress : ℚ → ℚ

/-- ECLPVT::ConvertUnits: one converter for the independent variate and one
per dependent column. -/
structure ConvertUnits where
  indep : ℚ → ℚ
  column : List (ℚ → ℚ)

/-- deadOilUnitConverter: converters for a dead-oil table
[ Po, 1/B, 1/(B·mu), d(1/B)/dPo, d(1/(B·mu))/dPo ]. -/
def deadOilUnitConverter (u : UnitSystem) : ConvertUnits :=
  ⟨u.pressure,
    [u.recipFvf, u.recipFvfVisc, u.recipFvfDerivPress, u.recipFvfViscDerivPress]⟩

/-- liveOilUnitConverter: the key converter (Rs) paired with the dead-oil
column converters. -/
def liveOilUnitConverter (u : UnitSystem) : (ℚ → ℚ) × ConvertUnits :=
  (u.disGas, deadOilUnitConverter u)

/-- Modelled from the spec: the external 1-D piecewise linear interpolation
capability (Interp1D::PiecewisePolynomial::Linear) — given ascending nodes
with values, evaluate at a point by linear interpolation between the
bracketing nodes, extrapolating linearly beyond the table range. -/
def linInterp : List ℚ → List ℚ → ℚ → ℚ
  | [], _, _ => 0
  | [_], ys, _ => ys.headD 0
  | x1 :: x2 :: xs, ys, p =>
    if p ≤ x2 ∨ xs = [] then
      ys.headD 0 + (p - x1) * ((ys.drop 1).headD 0 - ys.headD 0) / (x2 - x1)
    else
      linInterp (x2 :: xs) (ys.drop 1) p

/-- LiveOil::SubtableInterpolant: a linear interpolant with linear
extrapolation over converted pressure nodes, or the explicitly invalid
placeholder produced by the default construction StI(Extrap{}). -/
structure SubtableInterpolant where
  valid : Bool
  xNodes : List ℚ
  cols : List (List ℚ)
  deriving Repr, DecidableEq

/-- The invalid placeholder leaf StI(Extrap{}). -/
def SubtableInterpolant.invalid : SubtableInterpolant := ⟨false, [], []⟩

/-- Modelled from the spec: constructing an inner interpolation leaf from a
sub-table — rows whose independent entry is a sentinel are dropped, unit
conversion is applied to the independent variate and each dependent column,
and with zero valid nodes the constructor fails (std::invalid_argument). -/
def mkSubtableInterpolant (x : List ℚ) (cols : List (List ℚ))
    (cvI : ℚ → ℚ) (cvC : List (ℚ → ℚ)) : Except String SubtableInterpolant :=
  let validIdx := (List.range x.length).filter fun i => decide (|x.getD i 0| < sentinelRat)
  if validIdx.isEmpty then
    Except.error "No Valid Nodes"
  else
    Except.ok ⟨true, validIdx.map fun i => cvI (x.getD i 0),
      List.zipWith (fun cv col => validIdx.map fun i => cv (col.getD i 0)) cvC cols⟩

/-- Modelled from the spec: the external dead-oil interpolant (ECLPVT::PVDx) —
one 1-D leaf over pressure holding the four converted dependent columns. -/
structure PVDx where
  xNodes : List ℚ
  cols : List (List ℚ)
  deriving Repr, DecidableEq

/-- Modelled from the spec: PVDx construction applies unit conversion to the
pressure column and to each of the four dependent columns. -/
def mkPVDx (x : List ℚ) (cols : List (List ℚ)) (cvrt : ConvertUnits) : PVDx :=
  ⟨x.map cvrt.indep, List.zipWith (fun cv col => col.map cv) cvrt.column cols⟩

/-- Evaluate dependent column c of a dead-oil leaf at pressure p. -/
def PVDx.evalCol (d : PVDx) (c : Nat) (p : ℚ) : ℚ :=
  linInterp d.xNodes (d.cols.getD c []) p

/-- Modelled from the spec: PVDx::formationVolumeFactor — evaluate the stored
reciprocal-FVF column and invert. -/
def PVDx.formationVolumeFactor (d : PVDx) (po : List ℚ) : List ℚ :=
  po.map fun p => 1 / d.evalCol 0 p

/-- Modelled from the spec: PVDx::viscosity — ratio of the reciprocal-FVF and
reciprocal-FVF·viscosity columns. -/
def PVDx.viscosity (d : PVDx) (po : List ℚ) : List ℚ :=
  po.map fun p => d.evalCol 0 p / d.evalCol 1 p

/-- FlowDiagnostics::Graph: a pair of coordinate vectors (x, y). -/
abbrev Graph := List ℚ × List ℚ

/-- ECLPVT::RawCurve: the diagnostic curve kinds. -/
inductive RawCurve where
  | FVF
  | Viscosity
  | SaturatedState
  deriving Repr, DecidableEq

/-- Modelled from the spec: PVDx::getPvtCurve — one diagnostic graph in
natural (pressure, value) order; dead oil has no saturated-state relation,
for which an empty graph is produced. -/
def PVDx.getPvtCurve (d : PVDx) : RawCurve → Graph
  | RawCurve.FVF => (d.xNodes, (d.cols.getD 0 []).map fun r => 1 / r)
  | RawCurve.Viscosity =>
      (d.xNodes, List.zipWith (fun a b => a / b) (d.cols.getD 0 []) (d.cols.getD 1 []))
  | RawCurve.SaturatedState => ([], [])

/-- ECLPVT::PVTx: the live-oil two-level interpolant — outer gas-ratio key
plus one inner leaf per key node. -/
structure PVTx where
  key : List ℚ
  propInterp : List SubtableInterpolant
  deriving Repr, DecidableEq

/-- Evaluate dependent column c of an inner leaf at pressure p. -/
def SubtableInterpolant.evalCol (s : SubtableInterpolant) (c : Nat) (p : ℚ) : ℚ :=
  linInterp s.xNodes (s.cols.getD c []) p

/-- Modelled from the spec: two-level evaluation — each sample is positioned
against the outer key, combining the inner-leaf evaluations by linear
interpolation/extrapolation across the gas-ratio nodes. -/
def PVTx.evalCol (t : PVTx) (c : Nat) (rs p : ℚ) : ℚ :=
  linInterp t.key (t.propInterp.map fun s => s.evalCol c p) rs

/-- LiveOil::formationVolumeFactor: element-wise over (rs, po) pairs. -/
def PVTx.formationVolumeFactor (t : PVTx) (rs po : List ℚ) : List ℚ :=
  List.zipWith (fun r p => 1 / t.evalCol 0 r p) rs po

/-- LiveOil::viscosity: element-wise over (rs, po) pairs. -/
def PVTx.viscosity (t : PVTx) (rs po : List ℚ) : List ℚ :=
  List.zipWith (fun r p => t.evalCol 0 r p / t.evalCol 1 r p) rs po

/-- Modelled from the spec: PVTx::getPvtCurve — graphs in natural
construction order: one (pressure, value) graph per key node for FVF and
viscosity; for the saturated-state curve the columns are (Rs, Po) — the
gas-ratio key against each inner leaf's first pressure node — exactly the
order documented in LiveOil::repackagePvtCurve. -/
def PVTx.getPvtCurve (t : PVTx) : RawCurve → List Graph
  | RawCurve.FVF =>
      t.propInterp.map fun s => (s.xNodes, (s.cols.getD 0 []).map fun r => 1 / r)
  | RawCurve.Viscosity =>
      t.propInterp.map fun s =>
        (s.xNodes, List.zipWith (fun a b => a / b) (s.cols.getD 0 []) (s.cols.getD 1 []))
  | RawCurve.SaturatedState =>
      [(t.key, t.propInterp.map fun s => s.xNodes.headD 0)]

/-- PVxOBase: runtime selection of dead or live oil functions, embedded as a
closed sum over the two concrete classes. -/
inductive PVxOBase where
  | deadOil (interpolant : PVDx)
  | liveOil (interp : PVTx)
  deriving Repr, DecidableEq

/-- DeadOil::formationVolumeFactor ignores its rs argument;
LiveOil::formationVolumeFactor forwards both arguments to the two-level
interpolant. -/
def PVxOBase.formationVolumeFactor : PVxOBase → List ℚ → List ℚ → List ℚ
  | PVxOBase.deadOil i, _, po => i.formationVolumeFactor po
  | PVxOBase.liveOil i, rs, po => i.formationVolumeFactor rs po

/-- DeadOil::viscosity ignores its rs argument; LiveOil::viscosity forwards
both arguments. -/
def PVxOBase.viscosity : PVxOBase → List ℚ → List ℚ → List ℚ
  | PVxOBase.deadOil i, _, po => i.viscosity po
  | PVxOBase.liveOil i, rs, po => i.viscosity rs po

/-- DeadOil::getPvtCurve wraps its single graph in a one-element vector;
LiveOil::getPvtCurve returns interp_.getPvtCurve(curve) directly — it never
invokes repackagePvtCurve. -/
def PVxOBase.getPvtCurve : PVxOBase → RawCurve → List Graph
  | PVxOBase.deadOil i, c => [i.getPvtCurve c]
  | PVxOBase.liveOil i, c => i.getPvtCurve c

/-- LiveOil::repackagePvtCurve: for the saturated-state curve, swap the first
two columns of every graph from (Rs, Po) construction order to (Po, Rs); any
other curve kind is returned unchanged. -/
def repackagePvtCurve (graphs : List Graph) (curve : RawCurve) : List Graph :=
  if curve ≠ RawCurve.SaturatedState then graphs
  else graphs.map fun g => (g.2, g.1)

/-- DeadOil::clone / LiveOil::clone: construct a fresh copy of the model. -/
def PVxOBase.clone : PVxOBase → PVxOBase
  | PVxOBase.deadOil i => PVxOBase.deadOil i
  | PVxOBase.liveOil i => PVxOBase.liveOil i

/-- clone (anonymous namespace): per-element deep copy of a model array. -/
def cloneModels (src : List PVxOBase) : List PVxOBase :=
  src.map PVxOBase.clone

/-- The dependent-column stride of the condensed data array. -/
def colStride (raw : ECLPropTableRawData) : Nat :=
  raw.numRows * raw.numPrimary * raw.numTables

/-- Modelled from the spec: the condensed-data layout consumed by the
external MakeInterpolants::fromRawData — column c of flat sub-table i
(tables outermost, primary-key nodes inner) occupies numRows consecutive
entries at offset c·colStride + i·numRows. -/
def subtableColumn (raw : ECLPropTableRawData) (i c : Nat) : List ℚ :=
  (raw.data.drop (c * colStride raw + i * raw.numRows)).take raw.numRows

/-- The four dependent columns of flat sub-table i. -/
def subtableDepCols (raw : ECLPropTableRawData) (i : Nat) : List (List ℚ) :=
  (List.range 4).map fun c => subtableColumn raw i (c + 1)

/-- Modelled from the spec: MakeInterpolants::fromRawData — build one
interpolant per (table, primary-key-node) sub-table, tables outermost, from
the sub-table's independent column and four dependent columns. -/
def fromRawData {α : Type} (raw : ECLPropTableRawData)
    (mk : List ℚ → List (List ℚ) → α) : List α :=
  (List.range (raw.numTables * raw.numPrimary)).map fun i =>
    mk (subtableColumn raw i 0) (subtableDepCols raw i)

/-- createDeadOil: one dead-oil model per table (numPrimary == 1). -/
def createDeadOil (raw : ECLPropTableRawData) (u : UnitSystem) : List PVxOBase :=
  fromRawData raw fun x colIt =>
    PVxOBase.deadOil (mkPVDx x colIt (deadOilUnitConverter u))

/-- extractPrimaryKey: the unit-converted entries of table t's primary-key
slice whose absolute value is strictly below the 1.0e20 sentinel, kept in
order. -/
def extractPrimaryKey (raw : ECLPropTableRawData) (t : Nat) (cvrtKey : ℚ → ℚ) : List ℚ :=
  ((raw.primaryKey.drop (t * raw.numPrimary)).take raw.numPrimary).filterMap fun x =>
    if |x| < sentinelRat then some (cvrtKey x) else none

/-- The per-sub-table inner interpolants built by createLiveOil (the local
variable sti): an inner-leaf construction that fails for lack of valid nodes
is caught and replaced by the invalid placeholder. -/
def liveSti (raw : ECLPropTableRawData) (u : UnitSystem) : List SubtableInterpolant :=
  fromRawData raw fun x colIt =>
    match mkSubtableInterpolant x colIt (liveOilUnitConverter u).2.indep
        (liveOilUnitConverter u).2.column with
    | Except.ok s => s
    | Except.error _ => SubtableInterpolant.invalid

/-- createLiveOil: for each table t, pair the sentinel-filtered key with the
inner interpolants at flat positions t·numPrimary .. t·numPrimary + k - 1
where k is the filtered key's length. -/
def createLiveOil (raw : ECLPropTableRawData) (u : UnitSystem) : List PVxOBase :=
  (List.range raw.numTables).map fun t =>
    PVxOBase.liveOil
      ⟨extractPrimaryKey raw t (liveOilUnitConverter u).1,
        ((liveSti raw u).drop (t * raw.numPrimary)).take
          (extractPrimaryKey raw t (liveOilUnitConverter u).1).length⟩

/-- createPVTFunction: validate the raw table's structural invariants, then
route to the dead-oil builder (numPrimary == 1) or the live-oil builder. -/
def createPVTFunction (raw : ECLPropTableRawData) (u : UnitSystem) :
    Except String (List PVxOBase) :=
  if raw.numPrimary = 0 then
    Except.error "Oil PVT Table Without Primary Lookup Key"
  else if raw.numCols ≠ 5 then
    Except.error "PVT Table for Oil Must Have Five Columns"
  else if raw.primaryKey.length ≠ raw.numPrimary * raw.numTables then
    Except.error "Size Mismatch in RS Nodes of PVT Table for Oil"
  else if raw.data.length ≠ raw.numPrimary * raw.numRows * raw.numCols * raw.numTables then
    Except.error "Size Mismatch in Condensed Table Data of PVT Table for Oil"
  else if raw.numPrimary = 1 then
    Except.ok (createDeadOil raw u)
  else
    Except.ok (createLiveOil raw u)

/-- A placeholder model used only to totalize list indexing. -/
def defaultModel : PVxOBase := PVxOBase.deadOil ⟨[], []⟩

/-- ECLPVT::Oil::Impl: the region catalog — the model array and the
surface-mass-density array, stored as supplied. -/
structure OilImpl where
  eval_ : List PVxOBase
  rhoS_ : List ℚ
  deriving Repr, DecidableEq

/-- eval_.size() - 1 as computed in size_type arithmetic: unsigned 64-bit
wraparound at zero. -/
def sizeSub1 (n : Nat) : Nat := (n + (2 ^ 64 - 1)) % 2 ^ 64

/-- Oil::Impl::validateRegIdx: region >= eval_.size() raises an
invalid-argument error naming the offending index and the range
0 .. eval_.size()-1 (size_type subtraction). -/
def validateRegIdx (impl : OilImpl) (region : Nat) : Except String Unit :=
  if impl.eval_.length ≤ region then
    Except.error ("Region Index " ++ toString region ++
      " Outside Valid Range (0 .. " ++ toString (sizeSub1 impl.eval_.length) ++ ")")
  else
    Except.ok ()

/-- Oil::Impl::formationVolumeFactor: validate the region index, then
delegate to the region's model. -/
def OilImpl.formationVolumeFactor (impl : OilImpl) (region : Nat)
    (rs po : List ℚ) : Except String (List ℚ) :=
  (validateRegIdx impl region).map fun _ =>
    (impl.eval_.getD region defaultModel).formationVolumeFactor rs po

/-- Oil::Impl::viscosity: validate the region index, then delegate. -/
def OilImpl.viscosity (impl : OilImpl) (region : Nat)
    (rs po : List ℚ) : Except String (List ℚ) :=
  (validateRegIdx impl region).map fun _ =>
    (impl.eval_.getD region defaultModel).viscosity rs po

/-- Oil::Impl::surfaceMassDensity: validate the region index against the
model count only, then read rhoS_ at that position; the raw read is embedded
as an Option, none marking an out-of-bounds access. -/
def OilImpl.surfaceMassDensity (impl : OilImpl) (region : Nat) :
    Except String (Option ℚ) :=
  (validateRegIdx impl region).map fun _ => impl.rhoS_.get? region

/-- Oil::Impl::getPvtCurve: validate the region index, then delegate. -/
def OilImpl.getPvtCurve (impl : OilImpl) (region : Nat) (curve : RawCurve) :
    Except String (List Graph) :=
  (validateRegIdx impl region).map fun _ =>
    (impl.eval_.getD region defaultModel).getPvtCurve curve

/-- Oil::Impl::Impl: build the model array with createPVTFunction and store
the density array verbatim — its length is never checked against the model
count. -/
def mkImpl (raw : ECLPropTableRawData) (u : UnitSystem) (rhoS : List ℚ) :
    Except String OilImpl :=
  (createPVTFunction raw u).map fun ev => ⟨ev, rhoS⟩

/-- Oil::Impl copy (copy constructor and copy assignment): clone every model
and copy the density array. -/
def OilImpl.copy (impl : OilImpl) : OilImpl :=
  ⟨cloneModels impl.eval_, impl.rhoS_⟩

/-- Discriminator for the dead-oil variant. -/
def PVxOBase.isDeadOil : PVxOBase → Bool
  | PVxOBase.deadOil _ => true
  | PVxOBase.liveOil _ => false

/-- Discriminator for the live-oil variant. -/
def PVxOBase.isLiveOil : PVxOBase → Bool
  | PVxOBase.deadOil _ => false
  | PVxOBase.liveOil _ => true

/-- The identity unit system, used to instantiate witnesses. -/
def idUnits : UnitSystem := ⟨id, id, id, id, id, id⟩

/-- Witness input: a one-table dead-oil-shaped RawTable with four columns. -/
def rawFourCols : ECLPropTableRawData := ⟨1, 2, 4, 1, [0], List.replicate 8 1⟩

/-- Witness input: scenario D — live-oil table, per-table primary key
[0, 50, 1e21] with numPrimary = 3. -/
def rawScenD : ECLPropTableRawData :=
  ⟨3, 1, 5, 1, [0, 50, 10 ^ 21], List.replicate 15 1⟩

/-- Witness input: a live-oil table whose second sub-table has an
all-sentinel pressure column. -/
def rawLiveB : ECLPropTableRawData :=
  ⟨2, 1, 5, 1, [0, 50], [10, 10 ^ 21, 1, 1, 2, 2, 3, 3, 4, 4]⟩

/-- Witness input: a minimal valid one-region dead-oil table. -/
def rawDead1 : ECLPropTableRawData := ⟨1, 1, 5, 1, [0], [10, 1, 2, 3, 4]⟩

/-- Witness input: a structurally valid table with zero tables, producing an
empty catalog. -/
def rawEmptyTables : ECLPropTableRawData := ⟨1, 0, 5, 0, [], []⟩

/-- Table t's primary-key slice of the raw table. -/
def keySlice (raw : ECLPropTableRawData) (t : Nat) : List ℚ :=
  (raw.primaryKey.drop (t * raw.numPrimary)).take raw.numPrimary

theorem clone_eq_self (m : PVxOBase) : PVxOBase.clone m = m := by
  cases m <;> rfl

theorem cloneModels_eq_self (l : List PVxOBase) : cloneModels l = l := by
  have h : PVxOBase.clone = id := funext clone_eq_self
  rw [cloneModels, h, List.map_id]

theorem filterMap_guard_eq_filter_map (cv : ℚ → ℚ) (l : List ℚ) :
    (l.filterMap fun x => if |x| < sentinelRat then some (cv x) else none) =
      (l.filter fun x => decide (|x| < sentinelRat)).map cv := by
  induction l with
  | nil => rfl
  | cons a l ih =>
    by_cases h : |a| < sentinelRat <;>
      simp [List.filterMap_cons, List.filter_cons, h, ih]

theorem fromRawData_getD {α : Type} (raw : ECLPropTableRawData)
    (mk : List ℚ → List (List ℚ) → α) (i : Nat) (d : α)
    (hi : i < raw.numTables * raw.numPrimary) :
    (fromRawData raw mk).getD i d =
      mk (subtableColumn raw i 0) (subtableDepCols raw i) := by
  simp [fromRawData, List.getD, List.getElem?_map, List.getElem?_range hi]

theorem keySlice_length (raw : ECLPropTableRawData) (t : Nat)
    (hkey : raw.primaryKey.length = raw.numPrimary * raw.numTables)
    (ht : t < raw.numTables) :
    (keySlice raw t).length = raw.numPrimary := by
  have h6 : t * raw.numPrimary + raw.numPrimary ≤
      raw.numPrimary * raw.numTables := by
    calc t * raw.numPrimary + raw.numPrimary
        = (t + 1) * raw.numPrimary := by ring
      _ ≤ raw.numTables * raw.numPrimary :=
          Nat.mul_le_mul_right _ (Nat.succ_le_of_lt ht)
      _ = raw.numPrimary * raw.numTables := Nat.mul_comm _ _
  rw [keySlice, List.length_take, List.length_drop, hkey]
  exact Nat.min_eq_left (Nat.le_sub_of_add_le (by rw [Nat.add_comm]; exact h6))

/-- C2: construction of the model array raises a structural error exactly
when one of the four RawTable invariants fails; the error message names the
violated invariant; an error result carries no model array, so no partial
catalog is observable. -/
theorem c2_structural_validation_iff (raw : ECLPropTableRawData) (u : UnitSystem) :
    ((createPVTFunction raw u).isOk = true ↔
      ¬(raw.numPrimary = 0 ∨ raw.numCols ≠ 5 ∨
        raw.primaryKey.length ≠ raw.numPrimary * raw.numTables ∨
        raw.data.length ≠ raw.numPrimary * raw.numRows * raw.numCols * raw.numTables))
  ∧ (∀ e, createPVTFunction raw u = Except.error e →
      (e = "Oil PVT Table Without Primary Lookup Key" ∧ raw.numPrimary = 0) ∨
      (e = "PVT Table for Oil Must Have Five Columns" ∧ raw.numCols ≠ 5) ∨
      (e = "Size Mismatch in RS Nodes of PVT Table for Oil" ∧
        raw.primaryKey.length ≠ raw.numPrimary * raw.numTables) ∨
      (e = "Size Mismatch in Condensed Table Data of PVT Table for Oil" ∧
        raw.data.length ≠ raw.numPrimary * raw.numRows * raw.numCols * raw.numTables)) := by
  unfold createPVTFunction
  constructor
  · split_ifs with h1 h2 h3 h4 h5 <;> simp_all [Except.isOk, Except.toBool]
  · intro e he
    split_ifs at he with h1 h2 h3 h4 h5 <;> simp_all

/-- C2 witness: the four-column table is rejected, via the main theorem. -/
theorem c2_witness : ¬((createPVTFunction rawFourCols idUnits).isOk = true) :=
  fun hok => ((c2_structural_validation_iff rawFourCols idUnits).1.mp hok)
    (Or.inr (Or.inl (by decide)))

/-- C3: once the structural checks pass, numPrimary == 1 routes construction
to the dead-oil builder and numPrimary > 1 to the live-oil builder — exactly
one of the two — and every model built carries the corresponding variant. -/
theorem c3_variant_dispatch (raw : ECLPropTableRawData) (u : UnitSystem)
    (h1 : raw.numPrimary ≠ 0) (h2 : raw.numCols = 5)
    (h3 : raw.primaryKey.length = raw.numPrimary * raw.numTables)
    (h4 : raw.data.length = raw.numPrimary * raw.numRows * raw.numCols * raw.numTables) :
    (raw.numPrimary = 1 →
      createPVTFunction raw u = Except.ok (createDeadOil raw u) ∧
      ∀ m ∈ createDeadOil raw u, m.isDeadOil = true)
  ∧ (1 < raw.numPrimary →
      createPVTFunction raw u = Except.ok (createLiveOil raw u) ∧
      ∀ m ∈ createLiveOil raw u, m.isLiveOil = true) := by
  constructor
  · intro hp
    refine ⟨by unfold createPVTFunction; split_ifs <;> simp_all, ?_⟩
    intro m hm
    simp [createDeadOil, fromRawData, List.mem_map] at hm
    obtain ⟨i, -, rfl⟩ := hm
    rfl
  · intro hp
    refine ⟨by unfold createPVTFunction; split_ifs <;> simp_all, ?_⟩
    intro m hm
    simp [createLiveOil, List.mem_map] at hm
    obtain ⟨i, -, rfl⟩ := hm
    rfl

/-- C3 witness: the minimal dead-oil table routes to the dead-oil builder. -/
theorem c3_witness :
    createPVTFunction rawDead1 idUnits = Except.ok (createDeadOil rawDead1 idUnits) ∧
    ∀ m ∈ createDeadOil rawDead1 idUnits, m.isDeadOil = true :=
  (c3_variant_dispatch rawDead1 idUnits (by decide) (by decide) (by decide)
    (by decide)).1 rfl

/-- C4: the extracted primary key of table t holds, in order, exactly the
unit-converted entries of that table's key slice below the sentinel
magnitude; when any sentinel entry is present in the slice the key is
strictly shorter than numPrimary. -/
theorem c4_extract_primary_key_filters_sentinels (raw : ECLPropTableRawData)
    (t : Nat) (cv : ℚ → ℚ)
    (hkey : raw.primaryKey.length = raw.numPrimary * raw.numTables)
    (ht : t < raw.numTables) :
    extractPrimaryKey raw t cv =
      ((keySlice raw t).filter fun x => decide (|x| < sentinelRat)).map cv
  ∧ ((∃ x ∈ keySlice raw t, sentinelRat ≤ |x|) →
      (extractPrimaryKey raw t cv).length < raw.numPrimary) := by
  have hmain : extractPrimaryKey raw t cv =
      ((keySlice raw t).filter fun x => decide (|x| < sentinelRat)).map cv :=
    filterMap_guard_eq_filter_map cv _
  refine ⟨hmain, ?_⟩
  rintro ⟨x, hx, hsx⟩
  have hlt : ((keySlice raw t).filter fun x => decide (|x| < sentinelRat)).length <
      (keySlice raw t).length :=
    List.length_filter_lt_length_iff_exists.mpr
      ⟨x, hx, by simp [not_lt.mpr hsx]⟩
  rw [hmain, List.length_map]
  rw [keySlice_length raw t hkey ht] at hlt
  exact hlt

/-- C4 witness: scenario D — key [0, 50, 1e21] yields extracted key [0, 50],
of length strictly below numPrimary = 3. -/
theorem c4_witness :
    extractPrimaryKey rawScenD 0 id = [0, 50] ∧
    (extractPrimaryKey rawScenD 0 id).length < rawScenD.numPrimary := by
  have h := c4_extract_primary_key_filters_sentinels rawScenD 0 id (by decide)
    (by decide)
  exact ⟨by decide, h.2 ⟨10 ^ 21, by decide, by decide⟩⟩

/-- C5 counterexample: a structurally valid zero-table raw table builds an
empty catalog; querying region 0 then raises a range error whose message
reports the size_type wraparound value 2^64 - 1 as the upper bound, not the
claimed valid range [0, N-1] = [0, -1]. -/
theorem c5_empty_catalog_counterexample :
    mkImpl rawEmptyTables idUnits [] = Except.ok ⟨[], []⟩
  ∧ OilImpl.surfaceMassDensity ⟨[], []⟩ 0 =
      Except.error "Region Index 0 Outside Valid Range (0 .. 18446744073709551615)"
  ∧ ("Region Index 0 Outside Valid Range (0 .. 18446744073709551615)" ≠
      "Region Index 0 Outside Valid Range (0 .. " ++ toString ((0 : ℤ) - 1) ++ ")") :=
  ⟨rfl, rfl, by decide⟩

/-- C5 amended: for every catalog of nonzero size N (N below the size_type
bound), every accessor raises a range error exactly when the region index is
at least N, and the error message names the offending index and the valid
range 0 .. N-1; in-bounds queries proceed without a range error. -/
theorem c5_range_error_amended (impl : OilImpl) (r : Nat) (rs po : List ℚ)
    (c : RawCurve) (h1 : impl.eval_.length ≠ 0) (h2 : impl.eval_.length < 2 ^ 64) :
    ((impl.formationVolumeFactor r rs po).isOk = true ↔ r < impl.eval_.length)
  ∧ ((impl.viscosity r rs po).isOk = true ↔ r < impl.eval_.length)
  ∧ ((impl.surfaceMassDensity r).isOk = true ↔ r < impl.eval_.length)
  ∧ ((impl.getPvtCurve r c).isOk = true ↔ r < impl.eval_.length)
  ∧ (impl.eval_.length ≤ r →
      ∀ msg, (impl.formationVolumeFactor r rs po = Except.error msg ∨
              impl.viscosity r rs po = Except.error msg ∨
              impl.surfaceMassDensity r = Except.error msg ∨
              impl.getPvtCurve r c = Except.error msg) →
        msg = "Region Index " ++ toString r ++
          " Outside Valid Range (0 .. " ++ toString (impl.eval_.length - 1) ++ ")") := by
  have hsub : sizeSub1 impl.eval_.length = impl.eval_.length - 1 := by
    have h3 : impl.eval_.length + (2 ^ 64 - 1) =
        (impl.eval_.length - 1) + 2 ^ 64 := by omega
    rw [sizeSub1, h3, Nat.add_mod_right, Nat.mod_eq_of_lt (by omega)]
  by_cases hr : impl.eval_.length ≤ r
  · have hv : validateRegIdx impl r = Except.error ("Region Index " ++ toString r ++
        " Outside Valid Range (0 .. " ++ toString (impl.eval_.length - 1) ++ ")") := by
      rw [validateRegIdx, if_pos hr, hsub]
    refine ⟨?_, ?_, ?_, ?_, ?_⟩ <;>
      simp_all [OilImpl.formationVolumeFactor, OilImpl.viscosity,
        OilImpl.surfaceMassDensity, OilImpl.getPvtCurve, Except.isOk, Except.toBool,
        Except.map]
  · have hv : validateRegIdx impl r = Except.ok () := by
      rw [validateRegIdx, if_neg hr]
    refine ⟨?_, ?_, ?_, ?_, fun hle => absurd hle hr⟩ <;>
      simp_all [OilImpl.formationVolumeFactor, OilImpl.viscosity,
        OilImpl.surfaceMassDensity, OilImpl.getPvtCurve, Except.isOk, Except.toBool,
        Except.map]

/-- Witness catalog of size two (scenario C). -/
def implTwo : OilImpl := ⟨[defaultModel, defaultModel], [850, 860]⟩

/-- C5 witness: on the size-two catalog, surfaceMassDensity(5) raises the
range error citing 0 .. 1, via the amended theorem. -/
theorem c5_witness :
    OilImpl.surfaceMassDensity implTwo 5 =
      Except.error ("Region Index 5 Outside Valid Range (0 .. " ++
        toString (implTwo.eval_.length - 1) ++ ")") := by
  have h := c5_range_error_amended implTwo 5 [] [] RawCurve.FVF (by decide) (by decide)
  have hmsg : OilImpl.surfaceMassDensity implTwo 5 =
      Except.error "Region Index 5 Outside Valid Range (0 .. 1)" := rfl
  have := h.2.2.2.2 (by decide) _ (Or.inr (Or.inr (Or.inl hmsg)))
  rw [hmsg, this]
  rfl

/-- C6: copying the catalog (the Impl copy used by Oil's copy constructor
and copy assignment) yields a catalog whose four query accessors agree with
the original on all inputs; the copy is built only from the source's value
(per-model clone plus density copy), sharing no state with it. -/
theorem c6_copy_preserves_queries (impl : OilImpl) (r : Nat) (rs po : List ℚ)
    (c : RawCurve) :
    OilImpl.formationVolumeFactor (OilImpl.copy impl) r rs po =
      impl.formationVolumeFactor r rs po
  ∧ OilImpl.viscosity (OilImpl.copy impl) r rs po = impl.viscosity r rs po
  ∧ OilImpl.surfaceMassDensity (OilImpl.copy impl) r = impl.surfaceMassDensity r
  ∧ OilImpl.getPvtCurve (OilImpl.copy impl) r c = impl.getPvtCurve r c := by
  have hcopy : OilImpl.copy impl = impl := by
    cases impl with
    | mk ev rho => rw [OilImpl.copy, cloneModels_eq_self]
  rw [hcopy]
  exact ⟨rfl, rfl, rfl, rfl⟩

/-- C7: a dead-oil model's formationVolumeFactor and viscosity do not depend
on the gas-ratio argument: any two gas-ratio vectors give identical results
for the same pressure vector. -/
theorem c7_dead_oil_ignores_gas_ratio (d : PVDx) (rs1 rs2 po : List ℚ) :
    PVxOBase.formationVolumeFactor (PVxOBase.deadOil d) rs1 po =
      PVxOBase.formationVolumeFactor (PVxOBase.deadOil d) rs2 po
  ∧ PVxOBase.viscosity (PVxOBase.deadOil d) rs1 po =
      PVxOBase.viscosity (PVxOBase.deadOil d) rs2 po :=
  ⟨rfl, rfl⟩

/-- C8: when an inner leaf for one sub-table cannot be built (no valid
nodes), live-oil construction still succeeds: the invalid placeholder is
substituted at that sub-table's position, the catalog still has one model
per table, and every successfully built inner leaf is kept unchanged. -/
theorem c8_invalid_leaf_placeholder (raw : ECLPropTableRawData) (u : UnitSystem)
    (i : Nat) (hi : i < raw.numTables * raw.numPrimary)
    (hfail : mkSubtableInterpolant (subtableColumn raw i 0) (subtableDepCols raw i)
        (liveOilUnitConverter u).2.indep (liveOilUnitConverter u).2.column =
      Except.error "No Valid Nodes") :
    (liveSti raw u).getD i SubtableInterpolant.invalid = SubtableInterpolant.invalid
  ∧ (createLiveOil raw u).length = raw.numTables
  ∧ (∀ j s, j < raw.numTables * raw.numPrimary →
      mkSubtableInterpolant (subtableColumn raw j 0) (subtableDepCols raw j)
        (liveOilUnitConverter u).2.indep (liveOilUnitConverter u).2.column =
        Except.ok s →
      (liveSti raw u).getD j SubtableInterpolant.invalid = s) := by
  refine ⟨?_, by simp [createLiveOil], ?_⟩
  · unfold liveSti
    rw [fromRawData_getD raw _ i _ hi, hfail]
  · intro j s hj hok
    unfold liveSti
    rw [fromRawData_getD raw _ j _ hj, hok]

/-- C8 witness: in rawLiveB the second sub-table's pressure column is all
sentinel; its leaf fails and the placeholder is substituted while the build
still yields one model for the single table. -/
theorem c8_witness :
    (liveSti rawLiveB idUnits).getD 1 SubtableInterpolant.invalid =
      SubtableInterpolant.invalid
  ∧ (createLiveOil rawLiveB idUnits).length = rawLiveB.numTables := by
  have h := c8_invalid_leaf_placeholder rawLiveB idUnits 1 (by decide) rfl
  exact ⟨h.1, h.2.1⟩

/-- C9: the live-oil model for table t pairs the sentinel-filtered key
(length k) with exactly the first k inner interpolants of that table — the
contiguous flat positions t·numPrimary .. t·numPrimary + k - 1 — regardless
of which key slots held the sentinels. -/
theorem c9_key_leaf_pairing (raw : ECLPropTableRawData) (u : UnitSystem) (t : Nat)
    (ht : t < raw.numTables) :
    (createLiveOil raw u).getD t defaultModel =
      PVxOBase.liveOil
        ⟨extractPrimaryKey raw t (liveOilUnitConverter u).1,
          ((liveSti raw u).drop (t * raw.numPrimary)).take
            (extractPrimaryKey raw t (liveOilUnitConverter u).1).length⟩ := by
  simp [createLiveOil, List.getD, List.getElem?_map, List.getElem?_range ht]

/-- Witness input: a live-oil table whose sentinel occupies the LEADING
primary-key slot. -/
def rawLead : ECLPropTableRawData :=
  ⟨3, 1, 5, 1, [10 ^ 21, 0, 50], List.replicate 15 1⟩

/-- C9 witness: with the sentinel in the leading key slot, the filtered key
[0, 50] is still paired with the first two inner leaves (flat positions 0
and 1), i.e. with the sentinel slot's own sub-table. -/
theorem c9_witness :
    (createLiveOil rawLead idUnits).getD 0 defaultModel =
      PVxOBase.liveOil
        ⟨extractPrimaryKey rawLead 0 (liveOilUnitConverter idUnits).1,
          ((liveSti rawLead idUnits).drop (0 * rawLead.numPrimary)).take
            (extractPrimaryKey rawLead 0 (liveOilUnitConverter idUnits).1).length⟩
  ∧ extractPrimaryKey rawLead 0 (liveOilUnitConverter idUnits).1 = [0, 50] :=
  ⟨c9_key_leaf_pairing rawLead idUnits 0 (by decide), by decide⟩

/-- C10: Oil construction stores the supplied density array verbatim without
checking its length against the model count (success does not depend on the
density array at all); for a valid region index the density read stays in
bounds exactly when the density array is long enough. -/
theorem c10_unchecked_density_length (raw : ECLPropTableRawData) (u : UnitSystem)
    (rhoS : List ℚ) (impl : OilImpl) (r : Nat)
    (hmk : mkImpl raw u rhoS = Except.ok impl) (hr : r < impl.eval_.length) :
    impl.rhoS_ = rhoS
  ∧ (∀ rhoS2 : List ℚ, (mkImpl raw u rhoS2).isOk = (mkImpl raw u rhoS).isOk)
  ∧ (impl.surfaceMassDensity r = Except.ok none ↔ rhoS.length ≤ r)
  ∧ ((∃ v, impl.surfaceMassDensity r = Except.ok (some v)) ↔ r < rhoS.length) := by
  cases hcr : createPVTFunction raw u with
  | error e =>
    rw [mkImpl, hcr] at hmk
    cases hmk
  | ok ev =>
    rw [mkImpl, hcr] at hmk
    have himpl : impl = ⟨ev, rhoS⟩ := by
      cases hmk
      rfl
    subst himpl
    have hsm : OilImpl.surfaceMassDensity ⟨ev, rhoS⟩ r = Except.ok (rhoS.get? r) := by
      simp only [OilImpl.surfaceMassDensity, validateRegIdx]
      rw [if_neg (not_le.mpr hr)]
      rfl
    refine ⟨rfl, ?_, ?_, ?_⟩
    · intro rhoS2
      simp [mkImpl, hcr, Except.map, Except.isOk, Except.toBool]
    · rw [hsm]
      simp [List.get?_eq_none]
    · constructor
      · rintro ⟨v, hv⟩
        rw [hsm, Except.ok.injEq] at hv
        by_contra hge
        rw [List.get?_eq_none.mpr (not_lt.mp hge)] at hv
        cases hv
      · intro hlt
        refine ⟨rhoS.get ⟨r, hlt⟩, ?_⟩
        rw [hsm, List.get?_eq_get hlt]

/-- C10 witness: a catalog built with an EMPTY density array succeeds, and
reading the density of the (valid) region 0 goes out of bounds. -/
theorem c10_witness :
    (OilImpl.surfaceMassDensity ⟨createDeadOil rawDead1 idUnits, []⟩ 0 =
        Except.ok none ↔ List.length ([] : List ℚ) ≤ 0)
  ∧ OilImpl.surfaceMassDensity ⟨createDeadOil rawDead1 idUnits, []⟩ 0 =
      Except.ok none := by
  have h := c10_unchecked_density_length rawDead1 idUnits []
    ⟨createDeadOil rawDead1 idUnits, []⟩ 0 rfl (by decide)
  exact ⟨h.2.2.1, h.2.2.1.mpr (by decide)⟩

/-- Concrete live-oil model for the saturated-state curve divergence: key
nodes Rs = [0, 50], inner leaves with pressure nodes [10] and [20]. -/
def c1Tx : PVTx :=
  ⟨[0, 50], [⟨true, [10], [[1], [1], [0], [0]]⟩, ⟨true, [20], [[2], [2], [0], [0]]⟩]⟩

/-- C1: LiveOil::getPvtCurve returns the saturated-state graph in raw
(Rs, Po) construction order — it never calls repackagePvtCurve, so the
column swap to (Po, Rs) that repackagePvtCurve implements (and the spec
describes) does not happen; non-saturated curve kinds keep construction
order as claimed. -/
theorem c1_saturated_state_not_swapped :
    PVxOBase.getPvtCurve (PVxOBase.liveOil c1Tx) RawCurve.SaturatedState =
      [([0, 50], [10, 20])]
  ∧ repackagePvtCurve (PVTx.getPvtCurve c1Tx RawCurve.SaturatedState)
      RawCurve.SaturatedState = [([10, 20], [0, 50])]
  ∧ PVxOBase.getPvtCurve (PVxOBase.liveOil c1Tx) RawCurve.SaturatedState ≠
      repackagePvtCurve (PVTx.getPvtCurve c1Tx RawCurve.SaturatedState)
        RawCurve.SaturatedState
  ∧ PVxOBase.getPvtCurve (PVxOBase.liveOil c1Tx) RawCurve.FVF =
      PVTx.getPvtCurve c1Tx RawCurve.FVF := by
  refine ⟨rfl, rfl, ?_, rfl⟩
  decide
